import Mathlib

/-!
Shallow embedding of the job-lifecycle orchestrator of the voc-platform
repository: the coordinator agent (src/agents/coordinator/src/agent.py)
and the cost ledger (src/agents/coordinator/src/budget_tracker.py).

Modelling conventions:
* Python floats (USD amounts) are embedded as exact rationals.
* Python dicts with a fixed key set become structures; the job message and
  the per-job working state keep the source field names.
* Absent JSON fields are `Option` values (`none` = absent); `dict.get`
  with a default becomes `Option.getD`.
* Wall-clock timestamps, generated UUIDs, tenant identity and log output
  are environment noise and are dropped from the embedding; they are never
  branched on by the orchestrator logic.
* External I/O (queue send, queue receive, acknowledgment) is made
  explicit: the dequeue step returns the list of queue effects it
  performed, and each gateway node takes an `io` argument saying whether
  the external call raised (`some message`) or succeeded (`none`),
  mirroring the try/except wrapper in the source.
-/

namespace Voc

/-- Configuration read from the environment in agent.py:
STOP_ON_UNKNOWN_DOMAINS and BUDGET_CAP_USD. -/
structure Config where
  stop_on_unknown_domains : Bool
  budget_cap_usd : ℚ
deriving DecidableEq

/-- A job message from the scrape.jobs topic:
{id, source_type, url?, keywords?[], priority, domain_verified}. -/
structure Job where
  id : Option String
  source_type : Option String
  url : Option String
  keywords : List String
  priority : Option String
  domain_verified : Option Bool
deriving DecidableEq

/-- The job dict defaults to {} in AgentState: every field reads as absent. -/
def emptyJob : Job :=
  { id := none, source_type := none, url := none, keywords := [],
    priority := none, domain_verified := none }

/-- One entry of AgentState.errors: step name and error message
(the timestamp field is dropped). -/
structure ErrorEntry where
  step : String
  error : String
deriving DecidableEq

/-- The simulated scraper result built in dispatch_scraper
(tenant_id, metadata and timestamps dropped). -/
structure ScrapeResults where
  job_id : String
  source_type : String
  url : Option String
  content : String
  status : String
deriving DecidableEq

/-- One entity of the simulated tagger result. -/
structure Entity where
  type : String
  name : String
  id : String
deriving DecidableEq

/-- The simulated tagger result built in dispatch_tagger
(tenant_id, embedding_id and timestamps dropped). -/
structure TaggingResults where
  job_id : String
  doc_id : String
  sentiment : String
  topics : List String
  urgency : Bool
  source_type : String
  entities : List Entity
  status : String
deriving DecidableEq

/-- A graph edge built in create_graph_edges; the properties map carried a
confidence score and a timestamp, of which the timestamp is dropped. -/
structure GraphEdge where
  from_id : String
  to_id : String
  relation_type : String
  confidence : ℚ
deriving DecidableEq

/-- The graph_results dict built in create_graph_edges. -/
structure GraphResults where
  edges_created : Nat
  edges : List GraphEdge
  status : String
deriving DecidableEq

/-- AgentState from agent.py, with the pydantic defaults in
initialAgentState below. -/
structure AgentState where
  job : Job
  scrape_results : Option ScrapeResults
  tagging_results : Option TaggingResults
  graph_results : Option GraphResults
  stop_conditions : List String
  budget_used : ℚ
  need_human_approval : Bool
  human_approval_reason : Option String
  errors : List ErrorEntry
  status : String
deriving DecidableEq

/-- The pydantic field defaults of AgentState. -/
def initialAgentState : AgentState :=
  { job := emptyJob, scrape_results := none, tagging_results := none,
    graph_results := none, stop_conditions := [], budget_used := 0,
    need_human_approval := false, human_approval_reason := none,
    errors := [], status := "pending" }

/-- A routing target returned by the router: a named node of the
workflow graph, or the langgraph END sentinel. -/
inductive Route where
  | node : String → Route
  | END : Route
deriving DecidableEq

/-- Queue effects performed against the Pulsar client by the dequeue
step: consuming a message and acknowledging it. -/
inductive Effect where
  | receive : Effect
  | acknowledge : Effect
deriving DecidableEq

/-- Outcome of pulsar_client.receive_message plus json.loads in
get_next_job: no message available, a message whose payload fails JSON
parsing (json.loads raises), or a parsed job. -/
inductive DequeueResult where
  | empty : DequeueResult
  | malformed : DequeueResult
  | msg : Job → DequeueResult
deriving DecidableEq

/-- get_next_job: pull the next job from the queue. Returns the updated
state together with the ordered list of queue effects performed. The
source acknowledges the message immediately after json.loads succeeds and
before any state update; a parse failure lands in the except block, so no
acknowledgment happens on that path. -/
def get_next_job (incoming : DequeueResult) (s : AgentState) :
    AgentState × List Effect :=
  match incoming with
  | .empty => ({ s with status := "no_jobs" }, [])
  | .malformed =>
      ({ s with
          errors := s.errors ++
            [{ step := "get_next_job", error := "json.loads failed" }],
          status := "error" }, [.receive])
  | .msg job =>
      ({ s with
          job := job,
          status := "job_received",
          scrape_results := none,
          tagging_results := none,
          graph_results := none,
          stop_conditions := [],
          budget_used := 0,
          need_human_approval := false,
          human_approval_reason := none,
          errors := [] }, [.receive, .acknowledge])

/-- check_stop_conditions: recompute the stop-condition list from scratch,
then flag for human approval when it is non-empty. -/
def check_stop_conditions (cfg : Config) (s : AgentState) : AgentState :=
  let sc1 : List String :=
    if cfg.budget_cap_usd ≤ s.budget_used
    then [] ++ ["budget_cap_exceeded"] else []
  let sc2 : List String :=
    if cfg.stop_on_unknown_domains = true ∧
        s.job.domain_verified.getD false = false
    then sc1 ++ ["unknown_domain"] else sc1
  if sc2 = [] then
    { s with stop_conditions := sc2 }
  else
    { s with stop_conditions := sc2,
             need_human_approval := true,
             human_approval_reason := some (String.intercalate ", " sc2),
             status := "awaiting_approval" }

/-- request_human_approval: the source auto-approves after logging. -/
def request_human_approval (s : AgentState) : AgentState :=
  if s.need_human_approval = false then s
  else { s with need_human_approval := false, status := "approved" }

/-- dispatch_scraper: send the scraper job, record the simulated scrape
result and the cost. The node performs no url/keywords precondition
check. `io = some e` means the queue send raised `e`. -/
def dispatch_scraper (io : Option String) (s : AgentState) : AgentState :=
  match io with
  | some e =>
      { s with
          errors := s.errors ++ [{ step := "dispatch_scraper", error := e }],
          status := "error" }
  | none =>
      let job_id := s.job.id.getD "generated-uuid"
      let source_type := s.job.source_type.getD "unknown"
      let scrape_results : ScrapeResults :=
        { job_id := job_id, source_type := source_type, url := s.job.url,
          content := "Simulated content", status := "completed" }
      let cost_estimate : ℚ := 2 / 100
      { s with
          scrape_results := some scrape_results,
          status := "scraping_completed",
          budget_used := s.budget_used + cost_estimate }

/-- dispatch_tagger: requires a prior scrape result, then records the
simulated tagging result and the cost. `io = some e` means the queue send
raised `e`. -/
def dispatch_tagger (io : Option String) (s : AgentState) : AgentState :=
  match s.scrape_results with
  | none =>
      { s with
          errors := s.errors ++
            [{ step := "dispatch_tagger",
               error := "No scrape results available" }],
          status := "error" }
  | some sr =>
      match io with
      | some e =>
          { s with
              errors := s.errors ++
                [{ step := "dispatch_tagger", error := e }],
              status := "error" }
      | none =>
          let job_id := s.job.id.getD sr.job_id
          let tagging_results : TaggingResults :=
            { job_id := job_id, doc_id := "generated-uuid",
              sentiment := "positive",
              topics := ["product", "service", "quality"],
              urgency := false, source_type := sr.source_type,
              entities :=
                [{ type := "Brand", name := "Example Brand",
                   id := "generated-uuid" },
                 { type := "Topic", name := "Quality",
                   id := "generated-uuid" }],
              status := "completed" }
          let cost_estimate : ℚ := 5 / 100
          { s with
              tagging_results := some tagging_results,
              status := "tagging_completed",
              budget_used := s.budget_used + cost_estimate }

/-- create_graph_edges: requires a prior tagging result, then builds one
edge per entity. An empty entity list yields zero edges and still
advances the status. -/
def create_graph_edges (s : AgentState) : AgentState :=
  match s.tagging_results with
  | none =>
      { s with
          errors := s.errors ++
            [{ step := "create_graph_edges",
               error := "No tagging results available" }],
          status := "error" }
  | some tr =>
      let edges : List GraphEdge :=
        tr.entities.map (fun e =>
          { from_id := tr.doc_id, to_id := e.id,
            relation_type :=
              if e.type = "Topic" then "MENTIONS" else "ABOUT",
            confidence := 9 / 10 })
      { s with
          graph_results :=
            some { edges_created := edges.length, edges := edges,
                   status := "completed" },
          status := "graph_completed" }

/-- emit_events: requires tagging and graph results, then publishes the
completion event. `io = some e` means the queue send raised `e`. -/
def emit_events (io : Option String) (s : AgentState) : AgentState :=
  if s.tagging_results.isNone ∨ s.graph_results.isNone then
    { s with
        errors := s.errors ++
          [{ step := "emit_events", error := "Missing required results" }],
        status := "error" }
  else
    match io with
    | some e =>
        { s with
            errors := s.errors ++ [{ step := "emit_events", error := e }],
            status := "error" }
    | none => { s with status := "completed" }

/-- handle_error: log and mark the job as failed. -/
def handle_error (s : AgentState) : AgentState :=
  { s with status := "failed" }

/-- router: the conditional-branching function of the workflow. A
non-empty error list is checked first, then the status string. -/
def router (s : AgentState) : Route :=
  if s.errors ≠ [] then .node "handle_error"
  else if s.status = "no_jobs" then .END
  else if s.status = "job_received" then .node "check_stop_conditions"
  else if s.status = "awaiting_approval" then .node "request_human_approval"
  else if s.status = "approved" ∨ s.status = "job_received" then
    .node "dispatch_scraper"
  else if s.status = "scraping_completed" then .node "dispatch_tagger"
  else if s.status = "tagging_completed" then .node "create_graph_edges"
  else if s.status = "graph_completed" then .node "emit_events"
  else if s.status = "completed" then .node "get_next_job"
  else .END

/-- The edge structure installed by create_workflow: every node gets
conditional edges through the router, except handle_error, which has a
fixed edge to END. -/
def workflow_next (node : String) (s : AgentState) : Route :=
  if node = "handle_error" then .END else router s

/-! ## The cost ledger (budget_tracker.py) -/

/-- One per-job record of BudgetTracker.jobs: cumulative cost and the
ordered (type, cost) operation entries (timestamps dropped). -/
structure JobCosts where
  total_cost : ℚ
  operations : List (String × ℚ)
deriving DecidableEq

/-- The fixed key set of BudgetTracker.operations_cost, as a record of
the five per-category running totals. -/
structure OperationsCost where
  scraping : ℚ
  tagging : ℚ
  embedding : ℚ
  analysis : ℚ
  other : ℚ
deriving DecidableEq

/-- The zero-initialised operations_cost dict. -/
def OperationsCost.zero : OperationsCost :=
  { scraping := 0, tagging := 0, embedding := 0, analysis := 0, other := 0 }

/-- Membership test against the key set of operations_cost
(`operation_type not in self.operations_cost`). -/
def validCategory (c : String) : Bool :=
  c = "scraping" ∨ c = "tagging" ∨ c = "embedding" ∨ c = "analysis" ∨
    c = "other"

/-- `self.operations_cost[op] += cost` for a key of the dict. -/
def OperationsCost.add (oc : OperationsCost) (op : String) (cost : ℚ) :
    OperationsCost :=
  if op = "scraping" then { oc with scraping := oc.scraping + cost }
  else if op = "tagging" then { oc with tagging := oc.tagging + cost }
  else if op = "embedding" then { oc with embedding := oc.embedding + cost }
  else if op = "analysis" then { oc with analysis := oc.analysis + cost }
  else { oc with other := oc.other + cost }

/-- BudgetTracker: the global ledger. The jobs dict is an insertion-ordered
association list with unique keys, matching Python dict semantics. -/
structure BudgetTracker where
  budget_cap : ℚ
  total_cost : ℚ
  jobs : List (String × JobCosts)
  operations_cost : OperationsCost
deriving DecidableEq

/-- BudgetTracker.__init__ with the configured cap. -/
def BudgetTracker.init (cap : ℚ) : BudgetTracker :=
  { budget_cap := cap, total_cost := 0, jobs := [],
    operations_cost := OperationsCost.zero }

/-- The jobs-dict update of add_cost: initialise the job with total 0 if
absent, then add the cost to its total and append the operation entry.
Keys are unique, so updating the first match is dict semantics. -/
def addToJobs (jobs : List (String × JobCosts)) (job_id : String)
    (op : String) (cost : ℚ) : List (String × JobCosts) :=
  match jobs with
  | [] => [(job_id, { total_cost := 0 + cost, operations := [(op, cost)] })]
  | (k, jc) :: rest =>
      if k = job_id then
        (k, { total_cost := jc.total_cost + cost,
              operations := jc.operations ++ [(op, cost)] }) :: rest
      else
        (k, jc) :: addToJobs rest job_id op cost

/-- Lookup of a job record in the jobs dict. -/
def lookupJob (jobs : List (String × JobCosts)) (job_id : String) :
    Option JobCosts :=
  match jobs with
  | [] => none
  | (k, jc) :: rest => if k = job_id then some jc else lookupJob rest job_id

/-- BudgetTracker.add_cost: coerce an unrecognised category to other,
update all three views, and return the updated tracker together with the
new job total (the Python return value). -/
def BudgetTracker.add_cost (t : BudgetTracker) (job_id : String)
    (operation_type : String) (cost : ℚ) : BudgetTracker × ℚ :=
  let op := if validCategory operation_type then operation_type else "other"
  let t1 : BudgetTracker :=
    { t with
        total_cost := t.total_cost + cost,
        operations_cost := t.operations_cost.add op cost,
        jobs := addToJobs t.jobs job_id op cost }
  (t1, ((lookupJob t1.jobs job_id).map JobCosts.total_cost).getD 0)

/-- BudgetTracker.get_job_cost: the job total, 0 if unknown. -/
def BudgetTracker.get_job_cost (t : BudgetTracker) (job_id : String) : ℚ :=
  match lookupJob t.jobs job_id with
  | some jc => jc.total_cost
  | none => 0

/-- BudgetTracker.get_total_cost. -/
def BudgetTracker.get_total_cost (t : BudgetTracker) : ℚ :=
  t.total_cost

/-- BudgetTracker.would_exceed_budget. -/
def BudgetTracker.would_exceed_budget (t : BudgetTracker) (cost : ℚ) :
    Bool :=
  t.budget_cap < t.total_cost + cost

/-- BudgetTracker.reset: zero all three views, keep the cap. -/
def BudgetTracker.reset (t : BudgetTracker) : BudgetTracker :=
  { t with total_cost := 0, jobs := [],
           operations_cost := OperationsCost.zero }

/-- An administrative operation against the ledger: one add_cost call or
a reset. -/
inductive LedgerOp where
  | add : String → String → ℚ → LedgerOp
  | reset : LedgerOp
deriving DecidableEq

/-- Apply one ledger operation. -/
def applyOp (t : BudgetTracker) : LedgerOp → BudgetTracker
  | .add job_id op cost => (t.add_cost job_id op cost).1
  | .reset => t.reset

/-- Apply a sequence of ledger operations in order. -/
def runOps (t : BudgetTracker) (ops : List LedgerOp) : BudgetTracker :=
  ops.foldl applyOp t

/-- N add_cost calls for one job with (category, amount) pairs. -/
def runJobAdds (t : BudgetTracker) (job_id : String)
    (calls : List (String × ℚ)) : BudgetTracker :=
  calls.foldl (fun acc ca => (acc.add_cost job_id ca.1 ca.2).1) t

/-- Sum of the per-job cumulative costs. -/
def jobsSum (jobs : List (String × JobCosts)) : ℚ :=
  (jobs.map (fun p => p.2.total_cost)).sum

/-- Sum of the five per-category running totals. -/
def catSum (oc : OperationsCost) : ℚ :=
  oc.scraping + oc.tagging + oc.embedding + oc.analysis + oc.other

/-- The ledger invariant of the spec: total_cost equals the sum of the
per-job totals and the sum of the per-category totals. -/
def LedgerInv (t : BudgetTracker) : Prop :=
  t.total_cost = jobsSum t.jobs ∧ t.total_cost = catSum t.operations_cost

/-! ## Ledger lemmas -/

theorem jobsSum_nil : jobsSum [] = 0 := rfl

theorem jobsSum_cons (p : String × JobCosts) (rest : List (String × JobCosts)) :
    jobsSum (p :: rest) = p.2.total_cost + jobsSum rest := by
  simp [jobsSum]

theorem jobsSum_addToJobs (jobs : List (String × JobCosts))
    (j op : String) (c : ℚ) :
    jobsSum (addToJobs jobs j op c) = jobsSum jobs + c := by
  induction jobs with
  | nil => simp [addToJobs, jobsSum]
  | cons p rest ih =>
      obtain ⟨k, jc⟩ := p
      by_cases h : k = j
      · simp [addToJobs, h, jobsSum_cons]
        ring
      · simp [addToJobs, h, jobsSum_cons, ih]
        ring

theorem lookupCost_addToJobs_same (jobs : List (String × JobCosts))
    (j op : String) (c : ℚ) :
    ((lookupJob (addToJobs jobs j op c) j).map JobCosts.total_cost).getD 0 =
      ((lookupJob jobs j).map JobCosts.total_cost).getD 0 + c := by
  induction jobs with
  | nil => simp [addToJobs, lookupJob]
  | cons p rest ih =>
      obtain ⟨k, jc⟩ := p
      by_cases h : k = j
      · simp [addToJobs, h, lookupJob]
      · simp [addToJobs, h, lookupJob, ih]

theorem catSum_add (oc : OperationsCost) (op : String) (c : ℚ) :
    catSum (oc.add op c) = catSum oc + c := by
  unfold OperationsCost.add catSum
  split_ifs <;> dsimp <;> ring

theorem add_cost_total_cost (t : BudgetTracker) (j op : String) (c : ℚ) :
    ((t.add_cost j op c).1).total_cost = t.total_cost + c := rfl

theorem add_cost_get_job_cost (t : BudgetTracker) (j op : String) (c : ℚ) :
    ((t.add_cost j op c).1).get_job_cost j = t.get_job_cost j + c := by
  have h := lookupCost_addToJobs_same t.jobs j
    (if validCategory op then op else "other") c
  simp only [BudgetTracker.add_cost, BudgetTracker.get_job_cost]
  cases hl : lookupJob (addToJobs t.jobs j
      (if validCategory op then op else "other") c) j with
  | none => simp [hl] at h; cases ht : lookupJob t.jobs j <;> simp [ht] at h ⊢ <;>
      simp [h]
  | some jc => cases ht : lookupJob t.jobs j <;> simp [hl, ht] at h ⊢ <;>
      simp [h]

theorem ledgerInv_init (cap : ℚ) : LedgerInv (BudgetTracker.init cap) := by
  constructor <;> simp [BudgetTracker.init, jobsSum, catSum,
    OperationsCost.zero]

theorem ledgerInv_applyOp (t : BudgetTracker) (o : LedgerOp)
    (h : LedgerInv t) : LedgerInv (applyOp t o) := by
  cases o with
  | add j op c =>
      obtain ⟨h1, h2⟩ := h
      constructor
      · simp only [applyOp, BudgetTracker.add_cost, jobsSum_addToJobs, h1]
      · simp only [applyOp, BudgetTracker.add_cost, catSum_add, h2]
  | reset =>
      constructor <;> simp [applyOp, BudgetTracker.reset, jobsSum, catSum,
        OperationsCost.zero]

theorem ledgerInv_runOps (t : BudgetTracker) (ops : List LedgerOp)
    (h : LedgerInv t) : LedgerInv (runOps t ops) := by
  induction ops generalizing t with
  | nil => exact h
  | cons o rest ih => exact ih _ (ledgerInv_applyOp t o h)

theorem runJobAdds_get_job_cost (t : BudgetTracker) (j : String)
    (calls : List (String × ℚ)) :
    (runJobAdds t j calls).get_job_cost j =
      t.get_job_cost j + (calls.map Prod.snd).sum := by
  induction calls generalizing t with
  | nil => simp [runJobAdds]
  | cons ca rest ih =>
      have step := add_cost_get_job_cost t j ca.1 ca.2
      simp only [runJobAdds, List.foldl_cons] at ih ⊢
      rw [ih, step, List.map_cons, List.sum_cons]
      ring

theorem runJobAdds_total_cost (t : BudgetTracker) (j : String)
    (calls : List (String × ℚ)) :
    (runJobAdds t j calls).total_cost =
      t.total_cost + (calls.map Prod.snd).sum := by
  induction calls generalizing t with
  | nil => simp [runJobAdds]
  | cons ca rest ih =>
      simp only [runJobAdds, List.foldl_cons] at ih ⊢
      rw [ih, add_cost_total_cost, List.map_cons, List.sum_cons]
      ring

/-! ## Stop-condition evaluator lemmas -/

theorem check_sc (cfg : Config) (s : AgentState) :
    (check_stop_conditions cfg s).stop_conditions =
      (if cfg.budget_cap_usd ≤ s.budget_used then ["budget_cap_exceeded"]
       else []) ++
      (if cfg.stop_on_unknown_domains = true ∧
          s.job.domain_verified.getD false = false then ["unknown_domain"]
       else []) := by
  by_cases hb : cfg.budget_cap_usd ≤ s.budget_used <;>
    by_cases hd : cfg.stop_on_unknown_domains = true ∧
      s.job.domain_verified.getD false = false <;>
    simp [check_stop_conditions, hb, hd]

theorem check_budget_used (cfg : Config) (s : AgentState) :
    (check_stop_conditions cfg s).budget_used = s.budget_used := by
  by_cases hb : cfg.budget_cap_usd ≤ s.budget_used <;>
    by_cases hd : cfg.stop_on_unknown_domains = true ∧
      s.job.domain_verified.getD false = false <;>
    simp [check_stop_conditions, hb, hd]

theorem check_errors (cfg : Config) (s : AgentState) :
    (check_stop_conditions cfg s).errors = s.errors := by
  by_cases hb : cfg.budget_cap_usd ≤ s.budget_used <;>
    by_cases hd : cfg.stop_on_unknown_domains = true ∧
      s.job.domain_verified.getD false = false <;>
    simp [check_stop_conditions, hb, hd]

theorem check_status_of_budget (cfg : Config) (s : AgentState)
    (hb : cfg.budget_cap_usd ≤ s.budget_used) :
    (check_stop_conditions cfg s).status = "awaiting_approval" := by
  by_cases hd : cfg.stop_on_unknown_domains = true ∧
      s.job.domain_verified.getD false = false <;>
    simp [check_stop_conditions, hb, hd]

theorem check_need (cfg : Config) (s : AgentState) :
    (check_stop_conditions cfg s).need_human_approval =
      (if (check_stop_conditions cfg s).stop_conditions = []
       then s.need_human_approval else true) := by
  by_cases hb : cfg.budget_cap_usd ≤ s.budget_used <;>
    by_cases hd : cfg.stop_on_unknown_domains = true ∧
      s.job.domain_verified.getD false = false <;>
    simp [check_stop_conditions, hb, hd]

theorem check_reason (cfg : Config) (s : AgentState) :
    (check_stop_conditions cfg s).human_approval_reason =
      (if (check_stop_conditions cfg s).stop_conditions = []
       then s.human_approval_reason
       else some (String.intercalate ", "
         (check_stop_conditions cfg s).stop_conditions)) := by
  by_cases hb : cfg.budget_cap_usd ≤ s.budget_used <;>
    by_cases hd : cfg.stop_on_unknown_domains = true ∧
      s.job.domain_verified.getD false = false <;>
    simp [check_stop_conditions, hb, hd]

theorem check_status (cfg : Config) (s : AgentState) :
    (check_stop_conditions cfg s).status =
      (if (check_stop_conditions cfg s).stop_conditions = []
       then s.status else "awaiting_approval") := by
  by_cases hb : cfg.budget_cap_usd ≤ s.budget_used <;>
    by_cases hd : cfg.stop_on_unknown_domains = true ∧
      s.job.domain_verified.getD false = false <;>
    simp [check_stop_conditions, hb, hd]

/-! ## Router lemmas -/

theorem router_of_errors (s : AgentState) (h : s.errors ≠ []) :
    router s = Route.node "handle_error" := by
  simp [router, h]

theorem router_awaiting (s : AgentState) (he : s.errors = [])
    (hs : s.status = "awaiting_approval") :
    router s = Route.node "request_human_approval" := by
  simp [router, he, hs]

/-! ## Concrete demonstration values -/

/-- A configuration with the default cap and the domain policy on. -/
def cfgDemo : Config :=
  { stop_on_unknown_domains := true, budget_cap_usd := 100 }

/-- A freshly dequeued run that has already spent the whole cap. -/
def sBudgetDemo : AgentState :=
  { initialAgentState with budget_used := 100, status := "job_received" }

/-- A parsed job message. -/
def jobDemo : Job :=
  { id := some "j1", source_type := some "review",
    url := some "example.com", keywords := [], priority := some "high",
    domain_verified := some true }

/-- A run that failed during acquisition. -/
def sFailedDemo : AgentState :=
  { initialAgentState with
      errors := [{ step := "dispatch_scraper", error := "boom" }],
      status := "error" }

/-- An approved run whose job carries neither url nor keywords. -/
def sNoUrlDemo : AgentState :=
  { initialAgentState with
      job := { emptyJob with id := some "j1" },
      status := "approved" }

/-- An enrichment result with no taggable entity. -/
def taggingEmptyDemo : TaggingResults :=
  { job_id := "j1", doc_id := "d1", sentiment := "positive",
    topics := [], urgency := false, source_type := "review",
    entities := [], status := "completed" }

/-- A run about to enter the graph-update stage with no entities. -/
def sNoEntitiesDemo : AgentState :=
  { initialAgentState with
      tagging_results := some taggingEmptyDemo,
      status := "tagging_completed" }

/-- A fresh ledger with the default cap. -/
def trackerDemo : BudgetTracker := BudgetTracker.init 100

/-! ## Claim theorems -/

/-- Claim C1: once budget_used is at or above the cap, the stop-condition
evaluation of that state includes budget_cap_exceeded and leaves
budget_used unchanged — so every evaluation made while the condition
persists includes it — and the router transition out of the evaluation
goes to error handling or to the human-approval gate, never to a gateway
node (dispatch_scraper, dispatch_tagger, create_graph_edges): no gateway
is invoked until the approval step clears the condition. -/
theorem c1_budget_cap_blocks_gateways (cfg : Config) (s : AgentState)
    (h : cfg.budget_cap_usd ≤ s.budget_used) :
    "budget_cap_exceeded" ∈
      (check_stop_conditions cfg s).stop_conditions ∧
    (check_stop_conditions cfg s).budget_used = s.budget_used ∧
    (router (check_stop_conditions cfg s) = Route.node "handle_error" ∨
      router (check_stop_conditions cfg s) =
        Route.node "request_human_approval") := by
  refine ⟨?_, check_budget_used cfg s, ?_⟩
  · rw [check_sc]
    simp [h]
  · by_cases he : s.errors = []
    · right
      exact router_awaiting _ ((check_errors cfg s).trans he)
        (check_status_of_budget cfg s h)
    · left
      refine router_of_errors _ ?_
      rw [check_errors]
      exact he

/-- Claim C1 witness: the theorem applied to a run that spent exactly the
cap. -/
theorem c1_budget_cap_blocks_gateways_witness :
    cfgDemo.budget_cap_usd ≤ sBudgetDemo.budget_used ∧
    ("budget_cap_exceeded" ∈
        (check_stop_conditions cfgDemo sBudgetDemo).stop_conditions ∧
      (check_stop_conditions cfgDemo sBudgetDemo).budget_used =
        sBudgetDemo.budget_used ∧
      (router (check_stop_conditions cfgDemo sBudgetDemo) =
          Route.node "handle_error" ∨
        router (check_stop_conditions cfgDemo sBudgetDemo) =
          Route.node "request_human_approval")) :=
  ⟨by decide, c1_budget_cap_blocks_gateways cfgDemo sBudgetDemo (by decide)⟩

/-- Claim C2: whenever the error list is non-empty — whatever the current
status, the four stage states included — the router transitions to error
handling, and handle_error marks the run failed. -/
theorem c2_errors_force_failed (s : AgentState) (e : ErrorEntry)
    (rest : List ErrorEntry) :
    router { s with errors := e :: rest } = Route.node "handle_error" ∧
    (handle_error { s with errors := e :: rest }).status = "failed" := by
  constructor
  · exact router_of_errors _ (by simp)
  · rfl

/-- Claim C3: the stop-condition evaluation returns exactly the set
recomputed from scratch — budget_cap_exceeded present iff budget_used is
at or above the cap, unknown_domain present iff the policy is enabled and
the job is not domain-verified, in declaration order, independent of the
previous stop_conditions — and when the set is non-empty it sets
need_human_approval and the comma-joined approval reason, leaving both
untouched when the set is empty. -/
theorem c3_stop_condition_evaluation_exact (cfg : Config)
    (s : AgentState) :
    (check_stop_conditions cfg s).stop_conditions =
      (if cfg.budget_cap_usd ≤ s.budget_used then ["budget_cap_exceeded"]
       else []) ++
      (if cfg.stop_on_unknown_domains = true ∧
          s.job.domain_verified.getD false = false then ["unknown_domain"]
       else []) ∧
    ("budget_cap_exceeded" ∈ (check_stop_conditions cfg s).stop_conditions
      ↔ cfg.budget_cap_usd ≤ s.budget_used) ∧
    ("unknown_domain" ∈ (check_stop_conditions cfg s).stop_conditions ↔
      (cfg.stop_on_unknown_domains = true ∧
        s.job.domain_verified.getD false = false)) ∧
    (check_stop_conditions cfg s).need_human_approval =
      (if (check_stop_conditions cfg s).stop_conditions = []
       then s.need_human_approval else true) ∧
    (check_stop_conditions cfg s).human_approval_reason =
      (if (check_stop_conditions cfg s).stop_conditions = []
       then s.human_approval_reason
       else some (String.intercalate ", "
         (check_stop_conditions cfg s).stop_conditions)) := by
  refine ⟨check_sc cfg s, ?_, ?_, check_need cfg s, check_reason cfg s⟩
  · rw [check_sc]
    by_cases hb : cfg.budget_cap_usd ≤ s.budget_used <;>
      by_cases hd : cfg.stop_on_unknown_domains = true ∧
        s.job.domain_verified.getD false = false <;>
      simp [hb, hd]
  · rw [check_sc]
    by_cases hb : cfg.budget_cap_usd ≤ s.budget_used <;>
      by_cases hd : cfg.stop_on_unknown_domains = true ∧
        s.job.domain_verified.getD false = false <;>
      simp [hb, hd]

/-- Claim C4: every ledger state reachable from the initial tracker by
any sequence of add_cost and reset operations satisfies the invariant:
total_cost equals the sum of the per-job cumulative costs and equals the
sum of the per-category running totals. -/
theorem c4_ledger_invariant_reachable (cap : ℚ) (ops : List LedgerOp) :
    LedgerInv (runOps (BudgetTracker.init cap) ops) :=
  ledgerInv_runOps _ ops (ledgerInv_init cap)

/-- Claim C5: add_cost is strictly additive — after any finite sequence
of calls for one job, starting from a tracker in which that job has no
recorded cost, the job total equals the sum of the amounts and
total_cost has increased by exactly that sum. -/
theorem c5_add_cost_strictly_additive (t : BudgetTracker)
    (job_id : String) (calls : List (String × ℚ))
    (h : t.get_job_cost job_id = 0) :
    (runJobAdds t job_id calls).get_job_cost job_id =
      (calls.map Prod.snd).sum ∧
    (runJobAdds t job_id calls).total_cost =
      t.total_cost + (calls.map Prod.snd).sum := by
  constructor
  · rw [runJobAdds_get_job_cost, h, zero_add]
  · exact runJobAdds_total_cost t job_id calls

/-- Claim C5 witness: the theorem applied to a fresh ledger and the two
pipeline costs. -/
theorem c5_add_cost_strictly_additive_witness :
    trackerDemo.get_job_cost "j1" = 0 ∧
    ((runJobAdds trackerDemo "j1"
        [("scraping", 2 / 100), ("tagging", 5 / 100)]).get_job_cost "j1" =
      ([("scraping", (2 : ℚ) / 100),
        ("tagging", 5 / 100)].map Prod.snd).sum ∧
     (runJobAdds trackerDemo "j1"
        [("scraping", 2 / 100), ("tagging", 5 / 100)]).total_cost =
      trackerDemo.total_cost +
        ([("scraping", (2 : ℚ) / 100),
          ("tagging", 5 / 100)].map Prod.snd).sum) :=
  ⟨by decide,
    c5_add_cost_strictly_additive trackerDemo "j1"
      [("scraping", 2 / 100), ("tagging", 5 / 100)] (by decide)⟩

/-- Claim C10: a job message without the domain_verified field is treated
as unverified — with the policy enabled the evaluation adds
unknown_domain, and the whole stop-condition set coincides with the one
computed for the same job with domain_verified explicitly false. -/
theorem c10_absent_domain_verified_unverified (cfg : Config)
    (s : AgentState) :
    "unknown_domain" ∈
      (check_stop_conditions { cfg with stop_on_unknown_domains := true }
        { s with job :=
            { s.job with domain_verified := none } }).stop_conditions ∧
    (check_stop_conditions { cfg with stop_on_unknown_domains := true }
        { s with job :=
            { s.job with domain_verified := none } }).stop_conditions =
      (check_stop_conditions { cfg with stop_on_unknown_domains := true }
        { s with job :=
            { s.job with domain_verified := some false } }).stop_conditions
    := by
  constructor
  · rw [check_sc]
    simp
  · rw [check_sc, check_sc]
    simp

/-- Claim C6 counterexample: for a concrete failed run the workflow edge
out of handle_error is END — the loop halts; its next transition is not
the dequeue of the next job. -/
theorem c6_counterexample :
    workflow_next "handle_error" (handle_error sFailedDemo) = Route.END ∧
    workflow_next "handle_error" (handle_error sFailedDemo) ≠
      Route.node "get_next_job" := by
  constructor <;> decide

/-- Claim C6 amended: a gateway failure is contained — the error is
recorded in the run state rather than thrown, the router sends the run to
handle_error, and handle_error marks it failed — but the workflow edge
out of handle_error goes to END: the loop halts instead of dequeuing the
next job. -/
theorem c6_amended_failure_contained_then_end (s : AgentState)
    (e : String) :
    (dispatch_scraper (some e) s).errors ≠ [] ∧
    workflow_next "dispatch_scraper" (dispatch_scraper (some e) s) =
      Route.node "handle_error" ∧
    (handle_error (dispatch_scraper (some e) s)).status = "failed" ∧
    workflow_next "handle_error" (handle_error (dispatch_scraper (some e) s))
      = Route.END := by
  refine ⟨by simp [dispatch_scraper], ?_, rfl, rfl⟩
  have herr : (dispatch_scraper (some e) s).errors ≠ [] := by
    simp [dispatch_scraper]
  simp [workflow_next, router_of_errors _ herr]

/-- Claim C7 counterexample: dequeuing a concrete parseable message
acknowledges it inside the dequeue step itself, while the resulting
status is job_received — not a terminal status. -/
theorem c7_counterexample :
    Effect.acknowledge ∈
      (get_next_job (DequeueResult.msg jobDemo) initialAgentState).2 ∧
    (get_next_job (DequeueResult.msg jobDemo) initialAgentState).1.status
      = "job_received" ∧
    (get_next_job (DequeueResult.msg jobDemo) initialAgentState).1.status
      ≠ "completed" ∧
    (get_next_job (DequeueResult.msg jobDemo) initialAgentState).1.status
      ≠ "failed" := by
  refine ⟨?_, rfl, by decide, by decide⟩
  simp [get_next_job]

/-- Claim C7 amended: acknowledgment happens at dequeue time — for every
message that parses into a job, get_next_job itself performs receive and
then acknowledge, before the run starts (status job_received); a message
that fails to parse is received but never acknowledged. -/
theorem c7_amended_ack_at_dequeue (j : Job) (s : AgentState) :
    (get_next_job (DequeueResult.msg j) s).2 =
      [Effect.receive, Effect.acknowledge] ∧
    (get_next_job (DequeueResult.msg j) s).1.status = "job_received" ∧
    (get_next_job DequeueResult.malformed s).2 = [Effect.receive] :=
  ⟨rfl, rfl, rfl⟩

/-- Claim C8 counterexample: add_cost accepts a negative amount — adding
−5 for a job moves all three ledger views from 0 to −5 and changes the
tracker, instead of failing and leaving it unchanged. -/
theorem c8_counterexample :
    ((BudgetTracker.init 100).add_cost "j1" "scraping" (-5)).1.total_cost
      = -5 ∧
    ((BudgetTracker.init 100).add_cost "j1" "scraping"
      (-5)).1.get_job_cost "j1" = -5 ∧
    ((BudgetTracker.init 100).add_cost "j1" "scraping"
      (-5)).1.operations_cost.scraping = -5 ∧
    ((BudgetTracker.init 100).add_cost "j1" "scraping" (-5)).1 ≠
      BudgetTracker.init 100 := by
  have ht : ((BudgetTracker.init 100).add_cost "j1" "scraping"
      (-5)).1.total_cost = -5 := by
    rw [add_cost_total_cost]
    norm_num [BudgetTracker.init]
  have hj : ((BudgetTracker.init 100).add_cost "j1" "scraping"
      (-5)).1.get_job_cost "j1" = -5 := by
    rw [add_cost_get_job_cost]
    norm_num [BudgetTracker.get_job_cost, BudgetTracker.init, lookupJob]
  have hc : ((BudgetTracker.init 100).add_cost "j1" "scraping"
      (-5)).1.operations_cost.scraping = -5 := by
    simp [BudgetTracker.add_cost, BudgetTracker.init, OperationsCost.zero,
      OperationsCost.add, validCategory]
  refine ⟨ht, hj, hc, fun hcontra => ?_⟩
  rw [hcontra] at ht
  norm_num [BudgetTracker.init] at ht

/-- Claim C8 amended: add_cost performs no validation — any amount,
negative included, is silently accepted and added to total_cost and to
the per-job total. -/
theorem c8_amended_negative_accepted (t : BudgetTracker) (j op : String)
    (a : ℚ) :
    ((t.add_cost j op a).1).total_cost = t.total_cost + a ∧
    ((t.add_cost j op a).1).get_job_cost j = t.get_job_cost j + a :=
  ⟨add_cost_total_cost t j op a, add_cost_get_job_cost t j op a⟩

/-- Claim C9 counterexample: with neither url nor keywords the
acquisition stage still succeeds and advances (status
scraping_completed, no error recorded), and with an entity-free
enrichment result the graph-update stage advances with zero edges
instead of failing. -/
theorem c9_counterexample :
    (dispatch_scraper none sNoUrlDemo).status = "scraping_completed" ∧
    (dispatch_scraper none sNoUrlDemo).errors = [] ∧
    (create_graph_edges sNoEntitiesDemo).status = "graph_completed" ∧
    (create_graph_edges sNoEntitiesDemo).errors = [] ∧
    (create_graph_edges sNoEntitiesDemo).graph_results =
      some { edges_created := 0, edges := [], status := "completed" } :=
  ⟨rfl, rfl, rfl, rfl, rfl⟩

/-- Claim C9 amended: the enrichment and graph-update stages fail fast on
a missing prior result — an error is appended, the status becomes error
and the router sends the run to handle_error, so it does not advance past
the stage — but the acquisition stage performs no url/keywords check and
always advances, and the graph-update stage accepts an enrichment result
with no taggable entity, creating zero edges and advancing. -/
theorem c9_amended_fail_fast (s : AgentState) (io : Option String)
    (tr : TaggingResults) :
    (dispatch_tagger io { s with scrape_results := none }).status =
      "error" ∧
    (dispatch_tagger io { s with scrape_results := none }).errors ≠ [] ∧
    router (dispatch_tagger io { s with scrape_results := none }) =
      Route.node "handle_error" ∧
    (create_graph_edges { s with tagging_results := none }).status =
      "error" ∧
    router (create_graph_edges { s with tagging_results := none }) =
      Route.node "handle_error" ∧
    (dispatch_scraper none
      { s with job := { s.job with url := none, keywords := [] } }).status
      = "scraping_completed" ∧
    (create_graph_edges
      { s with tagging_results := some { tr with entities := [] } }).status
      = "graph_completed" := by
  refine ⟨rfl, by simp [dispatch_tagger], ?_, rfl, ?_, rfl, rfl⟩
  · exact router_of_errors _ (by simp [dispatch_tagger])
  · exact router_of_errors _ (by simp [create_graph_edges])

end Voc
